import Mathlib

/-!
Verification of the OpenManus think/act control loop and session-scoped
file-writer against its specification.

The development shallowly embeds the Python sources:

* `src/app/tool/file_saver.py` — `FileSaver.get_session_folder`,
  `FileSaver.generate_default_content`, `FileSaver.execute` and the POSIX
  path helpers they use (`os.path.isabs`, `os.path.basename`,
  `os.path.join`, `os.path.splitext`, and `os.path.normpath` for the
  escape analysis);
* `src/app/agent/toolcall.py` — `ToolCallAgent._fix_malformed_json`,
  `ToolCallAgent.execute_tool`, `ToolCallAgent.think`, `ToolCallAgent.act`.

Paths are POSIX strings.  Machine effects are made explicit: the file
system appears as a log of performed writes, the session marker
(`FileSaver._current_session_timestamp`) and the wall clock are threaded
as values, the LLM backend's JSON parser and the tool execution contracts
are oracle parameters returning `Except` (a `.error` is a raised Python
exception), and an agent method that Python lets raise is modelled with an
`Except` return type.
-/

namespace OpenManus

/-! ## POSIX path primitives (`os.path` on a POSIX system) -/

/-- Components of a path: the list pieces of `p.data` split on `'/'`.
Splitting the empty list yields `[[]]`, as Python's `"".split("/") == [""]`. -/
def splitSep : List Char → List (List Char)
  | [] => [[]]
  | c :: rest =>
    if c = '/' then [] :: splitSep rest
    else
      match splitSep rest with
      | [] => [[c]]
      | r :: rs => (c :: r) :: rs

def pathComps (p : String) : List (List Char) := splitSep p.data

/-- Models `os.path.isabs` on POSIX: the path starts with a slash. -/
def isAbsPath (p : String) : Bool :=
  match p.data with
  | [] => false
  | c :: _ => c = '/'

/-- Whether the path's last character is a slash (so `os.path.join` adds no
separator before the next part). -/
def endsWithSlash (p : String) : Bool := p.data.getLast? = some '/'

/-- Models `os.path.basename` on POSIX: everything after the last slash. -/
def baseNameOf (p : String) : String := ⟨(pathComps p).getLastD []⟩

/-- Models `os.path.join a b` on POSIX for two parts: an absolute second part
replaces the first; otherwise a separator is inserted unless the first part is
empty or already ends with one. -/
def joinPath (a b : String) : String :=
  if isAbsPath b then b
  else if a = "" ∨ endsWithSlash a then a ++ b
  else a ++ "/" ++ b

/-- One step of `os.path.normpath`'s component scan, with the stack kept in
reverse.  Empty and `.` components vanish; `..` pops a poppable entry, is kept
on a relative path with an empty or `..`-topped stack, and is dropped at the
root of an absolute path. -/
def normStep (isabs : Bool) (stack : List (List Char)) (c : List Char) : List (List Char) :=
  if c = [] ∨ c = ['.'] then stack
  else if c ≠ ['.', '.'] then c :: stack
  else
    match stack with
    | [] => if isabs then [] else [c]
    | t :: rest => if t = ['.', '.'] then c :: stack else rest

def normComps (isabs : Bool) (cs : List (List Char)) : List (List Char) :=
  (cs.foldl (normStep isabs) []).reverse

/-- The components of `os.path.normpath p`: what the operating system actually
resolves when the file at `p` is opened (symlinks aside). -/
def normPathComps (p : String) : List (List Char) :=
  normComps (isAbsPath p) (pathComps p)

/-- The components that survive normalisation of a `..`-free path: the
non-empty, non-`.` ones. -/
def realComps (cs : List (List Char)) : List (List Char) :=
  cs.filter (fun c => !(c = [] ∨ c = ['.'] : Bool))

/-- Whether `p` resolves strictly below `root`: same absoluteness, and the
normalised components of `root` are a proper prefix of those of `p`. -/
def isDescendant (root p : String) : Bool :=
  (isAbsPath root == isAbsPath p)
    && List.isPrefixOf (normPathComps root) (normPathComps p)
    && decide ((normPathComps root).length < (normPathComps p).length)

end OpenManus

namespace OpenManus

/-! ## `FileSaver` (src/app/tool/file_saver.py) -/

/-- Python whitespace for `str.strip` and the regex class `\s`, restricted to
ASCII. -/
def isPySpace (c : Char) : Bool :=
  c = ' ' ∨ c = '\t' ∨ c = '\n' ∨ c = '\r' ∨ c = '\x0b' ∨ c = '\x0c'

/-- Whether `not s.strip()` holds in Python: every character is whitespace
(in particular the empty string). -/
def isBlankStr (s : String) : Bool := s.data.all isPySpace

/-- Models `FileSaver.reset_session`: the class-level session marker is
cleared. -/
def reset_session (_ : Option String) : Option String := none

/-- Models `FileSaver.get_session_folder`.  The marker state stands for
`FileSaver._current_session_timestamp` and `now` for
`datetime.datetime.now().strftime(...)` at the moment of the call; the
directory `os.makedirs` side effect carries no information and is dropped.
Returns the timestamped output directory and the updated marker. -/
def get_session_folder (output_dir : String) (now : String) (st : Option String) :
    String × Option String :=
  let ts := match st with | none => now | some t => t
  (joinPath output_dir ("result_" ++ ts), some ts)

/-- Models the extension part of `os.path.splitext` applied to a basename:
the suffix from the last dot, provided some earlier character of the name is
not a dot (so `".bashrc"` has no extension). -/
def splitextExt (filename : List Char) : List Char :=
  let rev := filename.reverse
  let afterDot := rev.takeWhile (fun c => c ≠ '.')
  if afterDot.length = rev.length then []
  else
    let beforeRev := rev.drop (afterDot.length + 1)
    if beforeRev.any (fun c => c ≠ '.') then '.' :: afterDot.reverse else []

/-- Models `os.path.splitext(os.path.basename(p))[1].lower()` as computed at
the top of `FileSaver.generate_default_content`. -/
def fileExtension (file_path : String) : String :=
  ⟨(splitextExt (baseNameOf file_path).data).map Char.toLower⟩

/-- Models `FileSaver.generate_default_content`: the fixed extension →
placeholder-content mapping. -/
def generate_default_content (file_path : String) : String :=
  let filename := baseNameOf file_path
  let extension := fileExtension file_path
  if extension = ".md" then
    "# " ++ filename ++ "\n\nDefault content for " ++ filename ++ "\n"
  else if extension = ".txt" then
    "Default content for " ++ filename ++ "\n"
  else if extension = ".json" then
    "\x7b\x7d"
  else if extension = ".html" then
    "<!DOCTYPE html>\n<html>\n<head>\n    <title>" ++ filename
      ++ "</title>\n</head>\n<body>\n    <h1>Generated Content</h1>\n    <p>This is auto-generated content for "
      ++ filename ++ ".</p>\n</body>\n</html>"
  else if extension = ".py" then
    "# " ++ filename
      ++ "\n# Auto-generated Python script\n\ndef main():\n    print(\"Hello from "
      ++ filename ++ "!\")\n\nif __name__ == \"__main__\":\n    main()\n"
  else if extension = ".css" then
    "/* Auto-generated CSS */\nbody \x7b\n    font-family: Arial, sans-serif;\n    margin: 0;\n    padding: 20px;\n\x7d\n"
  else if extension = ".js" then
    "// Auto-generated JavaScript\nconsole.log('Script loaded!');\n\nfunction greet(name) \x7b\n    return `Hello, $\x7bname\x7d!`;\n\x7d\n"
  else
    "Default content for " ++ filename

/-- Models the path rewriting inside `FileSaver.execute`: an absolute
requested path containing a separator is cut down to its basename; a relative
one loses a literal leading `output_dir ++ "/"` prefix. -/
def sanitizeRequested (output_dir file_path : String) : String :=
  if isAbsPath file_path then
    if file_path.data.contains '/' ∨ file_path.data.contains '\\' then baseNameOf file_path
    else file_path
  else
    if List.isPrefixOf (output_dir ++ "/").data file_path.data then
      ⟨file_path.data.drop (output_dir ++ "/").data.length⟩
    else file_path

/-- Result of one `FileSaver.execute` call: the returned message, the file
writes performed as `(final path, mode, content)` triples, and the session
marker afterwards. -/
structure SaveOutcome where
  message : String
  writes : List (String × String × String)
  session : Option String
deriving DecidableEq

/-- Models `FileSaver.execute` from the `file_path` validation onward, for a
non-empty string `content` (both the direct path and the re-entry with
generated content land here). -/
def fileSaverChecked (content : String) (file_path : Option String) (mode : String)
    (output_dir : String) (st : Option String) (now : String) : SaveOutcome :=
  match file_path with
  | none =>
    ⟨"Error: Missing or invalid 'file_path' parameter. File path must be a non-empty string.", [], st⟩
  | some fp =>
    if isBlankStr fp then
      ⟨"Error: Missing or invalid 'file_path' parameter. File path must be a non-empty string.", [], st⟩
    else if ¬ (mode = "w" ∨ mode = "a") then
      ⟨"Error: Invalid mode '" ++ mode ++ "'. Mode must be 'w' (write) or 'a' (append).", [], st⟩
    else
      let root := (get_session_folder output_dir now st).1
      let final := joinPath root (sanitizeRequested output_dir fp)
      ⟨"Content successfully saved to " ++ final, [(final, mode, content)],
        (get_session_folder output_dir now st).2⟩

/-- Models the `content is None or content == ""` branch of
`FileSaver.execute`: with a truthy `file_path` it generates default content
and re-enters `execute`; the generated content is non-empty, so the re-entry
takes the validation path (`fileSaverChecked`). -/
def fileSaverNoContent (file_path : Option String) (mode : String)
    (output_dir : String) (st : Option String) (now : String) : SaveOutcome :=
  match file_path with
  | some fp =>
    if fp ≠ "" then
      let inner := fileSaverChecked (generate_default_content fp) (some fp) mode output_dir st now
      ⟨"Warning: No content provided. Using auto-generated content for " ++ fp ++ ".\n"
          ++ inner.message,
        inner.writes, inner.session⟩
    else
      ⟨"Error: Missing or invalid 'content' parameter. Content must be a string.", [], st⟩
  | none =>
    ⟨"Error: Missing or invalid 'content' parameter. Content must be a string.", [], st⟩

/-- Models `FileSaver.execute`.  `content` is `None` or a string (the
non-string coercion branch concerns argument values no claim reaches). -/
def fileSaverExecute (content : Option String) (file_path : Option String) (mode : String)
    (output_dir : String) (st : Option String) (now : String) : SaveOutcome :=
  match content with
  | none => fileSaverNoContent file_path mode output_dir st now
  | some c =>
    if c = "" then fileSaverNoContent file_path mode output_dir st now
    else fileSaverChecked c file_path mode output_dir st now

end OpenManus

namespace OpenManus

/-! ## `ToolCallAgent` (src/app/agent/toolcall.py) -/

/-- The parsed key/value mapping of a tool call's arguments, restricted to the
four keys the agent's `file_saver` handling inspects (other keys pass through
the opaque tool-execution oracle). -/
structure FSArgs where
  file_path : Option String := none
  content : Option String := none
  mode : Option String := none
  output_dir : Option String := none
deriving DecidableEq

/-- Models the `function` member of a proposed tool call. -/
structure ToolFunctionM where
  name : String
  arguments : Option String
deriving DecidableEq

/-- Models one `ToolCall` proposed by the backend. -/
structure ToolCallM where
  id : String
  function : Option ToolFunctionM
deriving DecidableEq

/-- The agent's fixed collaborators: the registry (`available_tools.tool_map`
keys), the configured `output_directory`, and oracles for `json.loads`
(a `.error` is a raised `JSONDecodeError`) and `available_tools.execute`
(a `.error e` is a raised exception with message `e`). -/
structure DispatchEnv where
  tool_map : List String
  output_directory : String
  parseJson : String → Except Unit FSArgs
  toolExec : String → FSArgs → Except String String

/-- Models the regex attempt at position zero: the literal `'"' key '"'`,
optional whitespace, `':'`, optional whitespace, an opening quote, then the
captured run of non-quote characters (required non-empty when `nonempty`),
then the closing quote. -/
def matchKV (key : List Char) (nonempty : Bool) (l : List Char) : Option (List Char) :=
  match l with
  | '"' :: rest =>
    if List.isPrefixOf (key ++ ['"']) rest then
      let rest2 := (rest.drop (key.length + 1)).dropWhile isPySpace
      match rest2 with
      | ':' :: rest3 =>
        match rest3.dropWhile isPySpace with
        | '"' :: rest4 =>
          let v := rest4.takeWhile (fun c => c ≠ '"')
          if rest4.drop v.length ≠ [] ∧ (v ≠ [] ∨ nonempty = false) then some v else none
        | _ => none
      | _ => none
    else none
  | _ => none

/-- Models `re.search` for the pattern of `matchKV`: the leftmost position
where it matches, scanning left to right. -/
def searchKV (key : List Char) (nonempty : Bool) : List Char → Option (List Char)
  | [] => none
  | c :: rest =>
    match matchKV key nonempty (c :: rest) with
    | some v => some v
    | none => searchKV key nonempty rest

/-- Models `ToolCallAgent._fix_malformed_json`: append a closing brace when an
opening one is unmatched, then extract the four known fields by regex; the
`file_path` value must be non-empty (`[^"]+`), the others may be empty. -/
def fix_malformed_json (raw_args : String) : FSArgs :=
  let raw := if raw_args.data.contains '\x7b' ∧ ¬ raw_args.data.contains '\x7d'
             then raw_args ++ "\x7d" else raw_args
  { file_path := (searchKV "file_path".data true raw.data).map (fun v => (⟨v⟩ : String))
    content := (searchKV "content".data false raw.data).map (fun v => (⟨v⟩ : String))
    mode := (searchKV "mode".data false raw.data).map (fun v => (⟨v⟩ : String))
    output_dir := (searchKV "output_dir".data false raw.data).map (fun v => (⟨v⟩ : String)) }

/-- The corrected argument mapping both recovery branches of
`ToolCallAgent.execute_tool` build: the extracted `file_path`, the given
content, the agent's output directory, then the extracted `mode` and
`output_dir` when present. -/
def correctedArgs (env : DispatchEnv) (args : FSArgs) (fp content : String) : FSArgs :=
  let c0 : FSArgs :=
    { file_path := some fp, content := some content,
      output_dir := some env.output_directory, mode := none }
  let c1 := if args.mode ≠ none then { c0 with mode := args.mode } else c0
  if args.output_dir ≠ none then { c1 with output_dir := args.output_dir } else c1

/-- Models `ToolCallAgent.execute_tool`.  Returns the observation string
together with the log of `available_tools.execute` invocations it performed,
as `(tool name, finalized argument mapping)` pairs.  Every raised fault of the
oracles is handled inside; the agent-state change of `_handle_special_tool`
carries no information for the claims and is dropped. -/
def execute_tool (env : DispatchEnv) (command : Option ToolCallM) :
    String × List (String × FSArgs) :=
  match command with
  | none => ("Error: Invalid command format", [])
  | some cmd =>
    match cmd.function with
    | none => ("Error: Invalid command format", [])
    | some fn =>
      if fn.name = "" then ("Error: Invalid command format", [])
      else if ¬ env.tool_map.contains fn.name then
        ("Error: Unknown tool '" ++ fn.name ++ "'", [])
      else
        let rawOr (dflt : String) : String :=
          match fn.arguments with
          | none => dflt
          | some a => if a = "" then dflt else a
        match env.parseJson (rawOr "\x7b\x7d") with
        | Except.ok args0 =>
          if fn.name = "file_saver" ∧ args0.content = none then
            ("Error: " ++ "Error: Missing required 'content' parameter for file_saver tool", [])
          else if fn.name = "file_saver" ∧ args0.file_path = none then
            ("Error: " ++ "Error: Missing required 'file_path' parameter for file_saver tool", [])
          else
            let args := if fn.name = "file_saver" ∧ args0.output_dir = none
                        then { args0 with output_dir := some env.output_directory } else args0
            match env.toolExec fn.name args with
            | Except.ok result =>
              (if result ≠ "" then
                  "Observed output of cmd `" ++ fn.name ++ "` executed:\n" ++ result
                else "Cmd `" ++ fn.name ++ "` completed with no output",
               [(fn.name, args)])
            | Except.error e =>
              ("Error: " ++ "⚠️ Tool '" ++ fn.name ++ "' encountered a problem: " ++ e,
               [(fn.name, args)])
        | Except.error _ =>
          if fn.name = "file_saver" then
            let args := fix_malformed_json (rawOr "")
            match args.file_path, args.content with
            | some fp, none =>
              let default_content := generate_default_content fp
              if default_content ≠ "" then
                let corrected := correctedArgs env args fp default_content
                match env.toolExec fn.name corrected with
                | Except.ok result =>
                  ("Observed output of cmd `" ++ fn.name ++ "` executed (with auto-fixed arguments):\n"
                      ++ result
                      ++ "\n\nNote: Default content was generated because the original request had missing content.",
                   [(fn.name, corrected)])
                | Except.error _ =>
                  ("Error: " ++ ("Error parsing arguments for " ++ fn.name ++ ": Invalid JSON format"),
                   [(fn.name, corrected)])
              else
                ("Error: Invalid JSON format for file_saver tool. To save a file, you need both 'file_path' and 'content' parameters in valid JSON format.",
                 [])
            | some fp, some c =>
              let corrected := correctedArgs env args fp c
              match env.toolExec fn.name corrected with
              | Except.ok result =>
                ("Observed output of cmd `" ++ fn.name ++ "` executed (with fixed JSON):\n" ++ result,
                 [(fn.name, corrected)])
              | Except.error _ =>
                ("Error: " ++ ("Error parsing arguments for " ++ fn.name ++ ": Invalid JSON format"),
                 [(fn.name, corrected)])
            | none, _ =>
              ("Error: Invalid JSON format for file_saver tool. To save a file, you need both 'file_path' and 'content' parameters in valid JSON format.",
               [])
          else
            ("Error: " ++ ("Error parsing arguments for " ++ fn.name ++ ": Invalid JSON format"),
             [])

/-- Conversation messages, as far as the think/act loop writes them. -/
inductive MsgM where
  | userMsg (content : String)
  | assistantMsg (content : Option String)
  | assistantToolCalls (content : Option String) (calls : List ToolCallM)
  | toolMsg (content : String) (tool_call_id : String) (name : String)
deriving DecidableEq

/-- Python truthiness of an optional string (`None` and `""` are falsy). -/
def contentTruthy (c : Option String) : Bool :=
  match c with
  | none => false
  | some s => s ≠ ""

/-- The backend's reply to one think-phase request. -/
structure LLMResponse where
  content : Option String
  tool_calls : List ToolCallM
deriving DecidableEq

/-- What `ToolCallAgent.think` leaves behind: the stored `self.tool_calls`,
the updated memory, and the returned should-act boolean. -/
structure ThinkResult where
  tool_calls : List ToolCallM
  memory : List MsgM
  proceed : Bool
deriving DecidableEq

/-- Models the policy handling of `ToolCallAgent.think` given the backend's
response: `self.tool_calls = response.tool_calls` happens first in every
case; under `"none"` the proposals are only logged, never cleared. -/
def think (tool_choices : String) (response : LLMResponse) (memory : List MsgM) :
    ThinkResult :=
  let tool_calls := response.tool_calls
  if tool_choices = "none" then
    if contentTruthy response.content then
      { tool_calls, memory := memory ++ [MsgM.assistantMsg response.content], proceed := true }
    else
      { tool_calls, memory, proceed := false }
  else
    let assistant_msg :=
      if tool_calls ≠ [] then MsgM.assistantToolCalls response.content tool_calls
      else MsgM.assistantMsg response.content
    let memory' := memory ++ [assistant_msg]
    if tool_choices = "required" ∧ tool_calls = [] then
      { tool_calls, memory := memory', proceed := true }
    else if tool_choices = "auto" ∧ tool_calls = [] then
      { tool_calls, memory := memory', proceed := contentTruthy response.content }
    else
      { tool_calls, memory := memory', proceed := tool_calls ≠ [] }

def TOOL_CALL_REQUIRED : String := "Tool calls required but none provided"

/-- Models `ToolCallAgent.act`.  `messages` is the contents of
`self.messages`; a `.error` is a raised exception (`ValueError` under the
`"required"` policy, `IndexError` on an empty message list).  On the tool
path it returns the double-newline-joined observations and the combined
invocation log of the dispatched calls. -/
def act (env : DispatchEnv) (tool_choices : String) (tool_calls : List ToolCallM)
    (messages : List (Option String)) :
    Except String (String × List (String × FSArgs)) :=
  match tool_calls with
  | [] =>
    if tool_choices = "required" then Except.error TOOL_CALL_REQUIRED
    else
      match messages.getLast? with
      | none => Except.error "IndexError: list index out of range"
      | some c =>
        Except.ok
          ((match c with
            | some s => if s ≠ "" then s else "No content or commands to execute"
            | none => "No content or commands to execute"), [])
  | calls =>
    let results := calls.map (fun cmd => execute_tool env (some cmd))
    Except.ok (String.intercalate "\n\n" (results.map Prod.fst), (results.map Prod.snd).flatten)

/-- Modelled from the spec: `ReActAgent.step`, whose code is not under
`src/`, sequences the phases — think returns a should-continue-to-act
signal, and when it is true the act phase runs on the stored tool calls.
Returns `none` when the step ends after think. -/
def step (env : DispatchEnv) (tool_choices : String) (response : LLMResponse)
    (memory : List MsgM) (messages : List (Option String)) :
    Option (Except String (String × List (String × FSArgs))) :=
  let t := think tool_choices response memory
  if t.proceed then some (act env tool_choices t.tool_calls messages) else none

end OpenManus

namespace OpenManus

/-! ## General lemmas -/

theorem strData_ext {s t : String} (h : s.data = t.data) : s = t := by
  cases s; cases t; exact congrArg String.mk h

theorem splitSep_ne_nil (l : List Char) : splitSep l ≠ [] := by
  cases l with
  | nil => simp [splitSep]
  | cons c rest =>
    simp only [splitSep]
    split
    · simp
    · split <;> simp

theorem splitSep_append_sep (a b : List Char) :
    splitSep (a ++ '/' :: b) = splitSep a ++ splitSep b := by
  induction a with
  | nil => simp [splitSep]
  | cons c a ih =>
    by_cases hc : c = '/'
    · subst hc; simp [splitSep, ih]
    · cases h : splitSep a with
      | nil => exact absurd h (splitSep_ne_nil a)
      | cons r rs =>
        simp only [List.cons_append, splitSep, if_neg hc, List.append_eq]
        rw [ih, h]
        simp

theorem foldl_normStep_of_no_dotdot (ab : Bool) (cs : List (List Char))
    (h : ∀ c ∈ cs, c ≠ ['.', '.']) :
    ∀ st, cs.foldl (normStep ab) st = (realComps cs).reverse ++ st := by
  induction cs with
  | nil => intro st; simp [realComps]
  | cons c cs ih =>
    intro st
    have hc : c ≠ ['.', '.'] := h c (by simp)
    have hrest : ∀ x ∈ cs, x ≠ ['.', '.'] := fun x hx => h x (by simp [hx])
    by_cases hskip : c = [] ∨ c = ['.']
    · simp only [List.foldl_cons, normStep, if_pos hskip]
      rw [ih hrest st]
      rcases hskip with h1 | h1 <;> subst h1 <;> simp [realComps, List.filter_cons]
    · have hskip' : ¬c = [] ∧ ¬c = ['.'] := by tauto
      simp only [List.foldl_cons, normStep, if_neg hskip, if_pos hc]
      rw [ih hrest (c :: st)]
      simp [realComps, List.filter_cons, hskip'.1, hskip'.2, List.reverse_cons,
        List.append_assoc]

theorem normComps_append_no_dotdot (ab : Bool) (xs ys : List (List Char))
    (h : ∀ c ∈ ys, c ≠ ['.', '.']) :
    normComps ab (xs ++ ys) = normComps ab xs ++ realComps ys := by
  unfold normComps
  rw [List.foldl_append, foldl_normStep_of_no_dotdot ab ys h, List.reverse_append]
  simp

theorem isAbsPath_append_left (a b : String) (ha : a.data ≠ []) :
    isAbsPath (a ++ b) = isAbsPath a := by
  unfold isAbsPath
  rw [String.data_append]
  cases h : a.data with
  | nil => exact absurd h ha
  | cons c t => simp

theorem isAbsPath_joinPath (a b : String) (hb : isAbsPath b = false) (ha : a.data ≠ []) :
    isAbsPath (joinPath a b) = isAbsPath a := by
  unfold joinPath
  rw [if_neg (by simp [hb])]
  split
  · exact isAbsPath_append_left a b ha
  · rw [isAbsPath_append_left (a ++ "/") b (by simp [String.data_append])]
    exact isAbsPath_append_left a "/" ha

theorem endsWithSlash_decomp (a : String) (h : endsWithSlash a = true) :
    ∃ r, a.data = r ++ ['/'] := by
  have h' : a.data.getLast? = some '/' := by
    unfold endsWithSlash at h
    exact of_decide_eq_true h
  rcases List.eq_nil_or_concat a.data with hnil | ⟨r, x, hr⟩
  · rw [hnil] at h'; simp at h'
  · refine ⟨r, ?_⟩
    rw [hr, List.concat_eq_append] at h' ⊢
    have hx : x = '/' := by simpa [List.getLast?_concat] using h'
    rw [hx]

theorem normPathComps_joinPath (a b : String)
    (hb : isAbsPath b = false) (ha : a.data ≠ [])
    (hnb : ∀ c ∈ pathComps b, c ≠ ['.', '.']) :
    normPathComps (joinPath a b) = normPathComps a ++ realComps (pathComps b) := by
  unfold normPathComps joinPath
  rw [if_neg (by simp [hb])]
  by_cases hcase : a = "" ∨ endsWithSlash a = true
  · rw [if_pos hcase]
    rcases hcase with hempty | hslash
    · exact absurd (by rw [hempty]) ha
    · obtain ⟨r, hr⟩ := endsWithSlash_decomp a hslash
      have habs : isAbsPath (a ++ b) = isAbsPath a := isAbsPath_append_left a b ha
      have h1 : pathComps (a ++ b) = splitSep r ++ splitSep b.data := by
        unfold pathComps
        rw [String.data_append, hr, List.append_assoc, List.singleton_append,
          splitSep_append_sep]
      have h2 : pathComps a = splitSep r ++ [[]] := by
        unfold pathComps
        rw [hr]
        have hsing : r ++ ['/'] = r ++ '/' :: [] := rfl
        rw [hsing, splitSep_append_sep]
        rfl
      rw [habs, h1, h2]
      rw [normComps_append_no_dotdot (isAbsPath a) (splitSep r) (splitSep b.data) hnb]
      rw [normComps_append_no_dotdot (isAbsPath a) (splitSep r) [[]]
        (by intro c hc; simp at hc; simp [hc])]
      simp [realComps, pathComps]
  · rw [if_neg hcase]
    have habs : isAbsPath (a ++ "/" ++ b) = isAbsPath a := by
      rw [isAbsPath_append_left (a ++ "/") b (by simp [String.data_append])]
      exact isAbsPath_append_left a "/" ha
    have h1 : pathComps (a ++ "/" ++ b) = pathComps a ++ pathComps b := by
      unfold pathComps
      rw [String.data_append, String.data_append]
      have hs : ("/" : String).data = ['/'] := rfl
      rw [hs, List.append_assoc, List.singleton_append, splitSep_append_sep]
    rw [habs, h1, normComps_append_no_dotdot (isAbsPath a) (pathComps a) (pathComps b) hnb]

theorem strAppend_left_cancel {a b c : String} (h : a ++ b = a ++ c) : b = c := by
  have hd : a.data ++ b.data = a.data ++ c.data := by
    rw [← String.data_append, ← String.data_append, h]
  exact strData_ext (List.append_cancel_left hd)

theorem joinPath_data_ne_nil (a b : String) (hb : b.data ≠ []) :
    (joinPath a b).data ≠ [] := by
  unfold joinPath
  split
  · exact hb
  · split <;> simp [String.data_append, hb]

theorem joinPath_right_inj (a : String) {b b' : String}
    (hb : isAbsPath b = false) (hb' : isAbsPath b' = false)
    (h : joinPath a b = joinPath a b') : b = b' := by
  by_cases hcase : a = "" ∨ endsWithSlash a = true
  · simp only [joinPath, hb, hb', Bool.false_eq_true, if_false, if_pos hcase] at h
    exact strAppend_left_cancel h
  · simp only [joinPath, hb, hb', Bool.false_eq_true, if_false, if_neg hcase] at h
    exact strAppend_left_cancel h

theorem generate_default_content_ne_empty (fp : String) :
    generate_default_content fp ≠ "" := by
  have hlenR : ∀ (x y : String), y.length ≠ 0 → x ++ y ≠ "" := by
    intro x y hy h
    have hc := congrArg String.length h
    rw [String.length_append] at hc
    simp at hc
    omega
  have hlenL : ∀ (x y : String), x.length ≠ 0 → x ++ y ≠ "" := by
    intro x y hx h
    have hc := congrArg String.length h
    rw [String.length_append] at hc
    simp at hc
    omega
  unfold generate_default_content
  dsimp only
  split
  · exact hlenR _ "\n" (by decide)
  split
  · exact hlenR _ "\n" (by decide)
  split
  · decide
  split
  · exact hlenR _ ".</p>\n</body>\n</html>" (by decide)
  split
  · exact hlenR _ "!\")\n\nif __name__ == \"__main__\":\n    main()\n" (by decide)
  split
  · decide
  split
  · decide
  · exact hlenL "Default content for " _ (by decide)

theorem isDescendant_joinPath (root s : String)
    (hroot : root.data ≠ []) (hs : isAbsPath s = false)
    (hnb : ∀ c ∈ pathComps s, c ≠ ['.', '.'])
    (hne : realComps (pathComps s) ≠ []) :
    isDescendant root (joinPath root s) = true := by
  unfold isDescendant
  rw [isAbsPath_joinPath root s hs hroot, normPathComps_joinPath root s hs hroot hnb]
  have hpos : 0 < (realComps (pathComps s)).length := List.length_pos.mpr hne
  simp [List.isPrefixOf_iff_prefix, List.prefix_append, List.length_append, hpos]

end OpenManus

namespace OpenManus

/-- C3: under the `required` tool-choice policy, an act phase with no
proposed tool calls raises the required-tool-call error (`ValueError` with
message "Tool calls required but none provided") instead of returning the
most recent message's content. -/
theorem c3_act_required_raises_without_tool_calls
    (env : DispatchEnv) (messages : List (Option String)) :
    act env "required" [] messages = Except.error TOOL_CALL_REQUIRED ∧
    TOOL_CALL_REQUIRED = "Tool calls required but none provided" :=
  ⟨rfl, rfl⟩

/-- C5: argument recovery for the file-writer is deterministic: the regex
extraction and the content synthesis are functions of the raw argument text
and of the destination path alone (no other state enters the embedding of
`_fix_malformed_json` or `generate_default_content`), so equal inputs give
equal recovered mappings and equal synthesized content. -/
theorem c5_recovery_deterministic (raw raw' p p' : String)
    (h1 : raw = raw') (h2 : p = p') :
    fix_malformed_json raw = fix_malformed_json raw' ∧
    generate_default_content p = generate_default_content p' := by
  subst h1; subst h2; exact ⟨rfl, rfl⟩

/-- Witness for C5 at concrete broken argument text and path. -/
theorem c5_recovery_deterministic_witness :
    fix_malformed_json "\x7b\"file_path\": \"a.md\"" = fix_malformed_json "\x7b\"file_path\": \"a.md\"" ∧
    generate_default_content "a.md" = generate_default_content "a.md" :=
  c5_recovery_deterministic "\x7b\"file_path\": \"a.md\"" "\x7b\"file_path\": \"a.md\"" "a.md" "a.md" rfl rfl

/-- C8: two file writes in one run with no reset between them use the same
`result_<timestamp>` session root even when their clock readings differ;
`reset_session` clears the marker, and the first write after a reset at a
timestamp different from the first one creates a different root. -/
theorem c8_session_root_stable_until_reset (od t1 t2 t3 : String) (h31 : t3 ≠ t1) :
    (get_session_folder od t2 (get_session_folder od t1 none).2).1
        = (get_session_folder od t1 none).1 ∧
    reset_session (get_session_folder od t2 (get_session_folder od t1 none).2).2 = none ∧
    (get_session_folder od t3
        (reset_session (get_session_folder od t2 (get_session_folder od t1 none).2).2)).1
      ≠ (get_session_folder od t1 none).1 := by
  refine ⟨rfl, rfl, ?_⟩
  intro h
  apply h31
  have hb : isAbsPath ("result_" ++ t3) = false := by
    rw [isAbsPath_append_left "result_" t3 (by decide)]; decide
  have hb' : isAbsPath ("result_" ++ t1) = false := by
    rw [isAbsPath_append_left "result_" t1 (by decide)]; decide
  exact strAppend_left_cancel (joinPath_right_inj od hb hb' h)

/-- Witness for C8 at concrete timestamps. -/
theorem c8_session_root_stable_until_reset_witness :
    (get_session_folder "output" "2024-01-01_00-00-05"
        (get_session_folder "output" "2024-01-01_00-00-00" none).2).1
        = (get_session_folder "output" "2024-01-01_00-00-00" none).1 ∧
    reset_session (get_session_folder "output" "2024-01-01_00-00-05"
        (get_session_folder "output" "2024-01-01_00-00-00" none).2).2 = none ∧
    (get_session_folder "output" "2024-01-01_00-00-09"
        (reset_session (get_session_folder "output" "2024-01-01_00-00-05"
          (get_session_folder "output" "2024-01-01_00-00-00" none).2).2)).1
      ≠ (get_session_folder "output" "2024-01-01_00-00-00" none).1 :=
  c8_session_root_stable_until_reset "output" "2024-01-01_00-00-00" "2024-01-01_00-00-05"
    "2024-01-01_00-00-09" (by decide)

/-- C1 (evidence of the code bug): under the `none` policy `think` stores the
backend's proposed calls in `self.tool_calls` anyway (it only logs a warning)
and returns `true` because content is non-empty, so the step's act phase
dispatches the proposed `terminate` call — it is executed, not discarded. -/
theorem c1_none_policy_still_executes_proposed_call :
    (think "none"
        ⟨some "Here is my answer", [⟨"call_1", some ⟨"terminate", some "\x7b\x7d"⟩⟩]⟩
        []).tool_calls
      = [⟨"call_1", some ⟨"terminate", some "\x7b\x7d"⟩⟩] ∧
    (think "none"
        ⟨some "Here is my answer", [⟨"call_1", some ⟨"terminate", some "\x7b\x7d"⟩⟩]⟩
        []).proceed = true ∧
    step
        ⟨["file_saver", "terminate"], "output", fun _ => Except.ok ⟨none, none, none, none⟩,
          fun _ _ => Except.ok "done"⟩
        "none"
        ⟨some "Here is my answer", [⟨"call_1", some ⟨"terminate", some "\x7b\x7d"⟩⟩]⟩
        [] [some "Here is my answer"]
      = some (Except.ok ("Observed output of cmd `terminate` executed:\ndone",
          [("terminate", ⟨none, none, none, none⟩)])) :=
  ⟨rfl, rfl, rfl⟩

end OpenManus

namespace OpenManus

theorem prefix_data_append (a b : String) (l : List Char) (h : l <+: a.data) :
    l <+: (a ++ b).data := by
  rw [String.data_append]
  exact h.trans (List.prefix_append a.data b.data)

/-- C4: the dispatcher is total — for every command (any tool name, any raw
argument text, any parser or tool fault) `execute_tool` returns exactly one
observation string, never an escaping exception (its type is a plain pair,
with every oracle `.error` handled inside), and every observation is either
a success observation (`Observed output of cmd ...` or `Cmd ... completed
with no output`) or an error converted to text prefixed `Error:`. -/
theorem c4_execute_tool_total_and_prefixed
    (env : DispatchEnv) (command : Option ToolCallM) :
    "Error:".data <+: (execute_tool env command).1.data ∨
    "Observed output of cmd".data <+: (execute_tool env command).1.data ∨
    "Cmd `".data <+: (execute_tool env command).1.data := by
  rcases command with _ | ⟨cid, _ | fn⟩
  · left
    show "Error:".data <+: ("Error: Invalid command format" : String).data
    decide
  · left
    show "Error:".data <+: ("Error: Invalid command format" : String).data
    decide
  · unfold execute_tool
    dsimp only
    repeat' split
    all_goals
      solve
        | (left; repeat first | decide | apply prefix_data_append)
        | (right; left; repeat first | decide | apply prefix_data_append)
        | (right; right; repeat first | decide | apply prefix_data_append)

end OpenManus

namespace OpenManus

/-- C7: when the malformed-argument recovery extracts no destination path,
the dispatcher gives up: it returns the error observation naming both
required fields, and its invocation log is empty — the file-writer's
execution contract is never invoked, so no file is written. -/
theorem c7_unrecoverable_path_gives_up
    (env : DispatchEnv) (idv raw : String)
    (hmap : env.tool_map.contains "file_saver" = true)
    (hraw : raw ≠ "")
    (hparse : env.parseJson raw = Except.error ())
    (hfp : (fix_malformed_json raw).file_path = none) :
    execute_tool env (some ⟨idv, some ⟨"file_saver", some raw⟩⟩)
      = ("Error: Invalid JSON format for file_saver tool. To save a file, you need both 'file_path' and 'content' parameters in valid JSON format.",
         []) := by
  unfold execute_tool
  dsimp only
  rw [if_neg (by decide), if_neg (by rw [hmap]; decide), if_neg hraw, hparse]
  dsimp only
  rw [if_pos rfl, if_neg hraw, hfp]

/-- Witness for C7: concrete broken text with no recoverable path. -/
theorem c7_unrecoverable_path_gives_up_witness :
    execute_tool
        ⟨["file_saver", "terminate"], "output", fun _ => Except.error (),
          fun _ _ => Except.ok "saved"⟩
        (some ⟨"call_9", some ⟨"file_saver", some "garbage text"⟩⟩)
      = ("Error: Invalid JSON format for file_saver tool. To save a file, you need both 'file_path' and 'content' parameters in valid JSON format.",
         []) :=
  c7_unrecoverable_path_gives_up
    ⟨["file_saver", "terminate"], "output", fun _ => Except.error (),
      fun _ _ => Except.ok "saved"⟩
    "call_9" "garbage text" (by decide) (by decide) rfl (by decide)

end OpenManus

namespace OpenManus

/-- C6: when recovery extracts a destination path but no content, the
dispatcher synthesizes non-empty placeholder content from the path's
extension by the fixed mapping, invokes the tool with that content (the
invocation log holds exactly that call), and the returned observation
carries the explicit warning that content was auto-generated. -/
theorem c6_recovery_synthesizes_default_content
    (env : DispatchEnv) (idv raw fp r : String)
    (hmap : env.tool_map.contains "file_saver" = true)
    (hraw : raw ≠ "")
    (hparse : env.parseJson raw = Except.error ())
    (hfp : (fix_malformed_json raw).file_path = some fp)
    (hnc : (fix_malformed_json raw).content = none)
    (hexec : env.toolExec "file_saver"
        (correctedArgs env (fix_malformed_json raw) fp (generate_default_content fp))
      = Except.ok r) :
    execute_tool env (some ⟨idv, some ⟨"file_saver", some raw⟩⟩)
      = ("Observed output of cmd `file_saver` executed (with auto-fixed arguments):\n" ++ r
          ++ "\n\nNote: Default content was generated because the original request had missing content.",
        [("file_saver", correctedArgs env (fix_malformed_json raw) fp (generate_default_content fp))]) ∧
    (correctedArgs env (fix_malformed_json raw) fp (generate_default_content fp)).content
      = some (generate_default_content fp) ∧
    generate_default_content fp ≠ "" ∧
    (∀ q, fileExtension q = ".md" →
      generate_default_content q
        = "# " ++ baseNameOf q ++ "\n\nDefault content for " ++ baseNameOf q ++ "\n") ∧
    (∀ q, fileExtension q = ".txt" →
      generate_default_content q = "Default content for " ++ baseNameOf q ++ "\n") ∧
    (∀ q, fileExtension q = ".json" → generate_default_content q = "\x7b\x7d") ∧
    (∀ q, fileExtension q = ".html" →
      generate_default_content q
        = "<!DOCTYPE html>\n<html>\n<head>\n    <title>" ++ baseNameOf q
            ++ "</title>\n</head>\n<body>\n    <h1>Generated Content</h1>\n    <p>This is auto-generated content for "
            ++ baseNameOf q ++ ".</p>\n</body>\n</html>") ∧
    (∀ q, fileExtension q = ".py" →
      generate_default_content q
        = "# " ++ baseNameOf q
            ++ "\n# Auto-generated Python script\n\ndef main():\n    print(\"Hello from "
            ++ baseNameOf q ++ "!\")\n\nif __name__ == \"__main__\":\n    main()\n") ∧
    (∀ q, fileExtension q = ".css" →
      generate_default_content q
        = "/* Auto-generated CSS */\nbody \x7b\n    font-family: Arial, sans-serif;\n    margin: 0;\n    padding: 20px;\n\x7d\n") ∧
    (∀ q, fileExtension q = ".js" →
      generate_default_content q
        = "// Auto-generated JavaScript\nconsole.log('Script loaded!');\n\nfunction greet(name) \x7b\n    return `Hello, $\x7bname\x7d!`;\n\x7d\n") ∧
    (∀ q, fileExtension q ∉ ([".md", ".txt", ".json", ".html", ".py", ".css", ".js"] : List String) →
      generate_default_content q = "Default content for " ++ baseNameOf q) := by
  refine ⟨?_, ?_, generate_default_content_ne_empty fp, ?_, ?_, ?_, ?_, ?_, ?_, ?_, ?_⟩
  · unfold execute_tool
    dsimp only
    rw [if_neg (by decide), if_neg (by rw [hmap]; decide), if_neg hraw, hparse]
    dsimp only
    rw [if_pos rfl, if_neg hraw, hfp, hnc]
    dsimp only
    rw [if_pos (generate_default_content_ne_empty fp), hexec]
    rfl
  · unfold correctedArgs
    dsimp only
    split <;> split <;> rfl
  · intro q hq
    unfold generate_default_content
    dsimp only
    rw [hq, if_pos rfl]
  · intro q hq
    unfold generate_default_content
    dsimp only
    rw [hq, if_neg (by decide), if_pos rfl]
  · intro q hq
    unfold generate_default_content
    dsimp only
    rw [hq, if_neg (by decide), if_neg (by decide), if_pos rfl]
  · intro q hq
    unfold generate_default_content
    dsimp only
    rw [hq, if_neg (by decide), if_neg (by decide), if_neg (by decide), if_pos rfl]
  · intro q hq
    unfold generate_default_content
    dsimp only
    rw [hq, if_neg (by decide), if_neg (by decide), if_neg (by decide), if_neg (by decide),
      if_pos rfl]
  · intro q hq
    unfold generate_default_content
    dsimp only
    rw [hq, if_neg (by decide), if_neg (by decide), if_neg (by decide), if_neg (by decide),
      if_neg (by decide), if_pos rfl]
  · intro q hq
    unfold generate_default_content
    dsimp only
    rw [hq, if_neg (by decide), if_neg (by decide), if_neg (by decide), if_neg (by decide),
      if_neg (by decide), if_neg (by decide), if_pos rfl]
  · intro q hq
    unfold generate_default_content
    dsimp only
    simp only [List.mem_cons, List.not_mem_nil, or_false, not_or] at hq
    rw [if_neg hq.1, if_neg hq.2.1, if_neg hq.2.2.1, if_neg hq.2.2.2.1,
      if_neg hq.2.2.2.2.1, if_neg hq.2.2.2.2.2.1, if_neg hq.2.2.2.2.2.2]

end OpenManus

namespace OpenManus

/-- Witness for C6: concrete broken argument text holding only a destination
path; the dispatcher invokes the tool with the synthesized markdown content
and warns that content was auto-generated. -/
theorem c6_recovery_synthesizes_default_content_witness :
    execute_tool
        ⟨["file_saver"], "output", fun _ => Except.error (), fun _ _ => Except.ok "saved"⟩
        (some ⟨"call_3", some ⟨"file_saver", some "\x7b\"file_path\": \"a.md\""⟩⟩)
      = ("Observed output of cmd `file_saver` executed (with auto-fixed arguments):\n" ++ "saved"
          ++ "\n\nNote: Default content was generated because the original request had missing content.",
        [("file_saver",
          correctedArgs ⟨["file_saver"], "output", fun _ => Except.error (), fun _ _ => Except.ok "saved"⟩
            (fix_malformed_json "\x7b\"file_path\": \"a.md\"") "a.md"
            (generate_default_content "a.md"))]) :=
  (c6_recovery_synthesizes_default_content
    ⟨["file_saver"], "output", fun _ => Except.error (), fun _ _ => Except.ok "saved"⟩
    "call_3" "\x7b\"file_path\": \"a.md\"" "a.md" "saved"
    (by decide) (by decide) rfl (by decide) (by decide) rfl).1

/-- C2 fails as stated: a relative requested path climbing with `..` is
joined under the session root untouched, and the path the write resolves to
is not a descendant of the session root (it normalises to
`output/escape.txt`, outside `output/result_T`). -/
theorem c2_relative_dotdot_escape_counterexample :
    (fileSaverExecute (some "data") (some "../escape.txt") "w" "output" none "T").writes
      = [("output/result_T/../escape.txt", "w", "data")] ∧
    isDescendant (get_session_folder "output" "T" none).1 "output/result_T/../escape.txt"
      = false := by
  constructor
  · rfl
  · decide

/-- C2 (amended): an absolute requested path is always reduced to its base
file name, and the final write path is a strict descendant of the session
root whenever the sanitized requested path (after basename reduction and
output-dir prefix stripping) is relative, contains no `..` component, and
has at least one real component — the counterexample shows the unrestricted
claim false for `..`-climbing relative paths. -/
theorem c2_sandboxed_amended
    (content : Option String) (fp mode output_dir now : String) (st : Option String)
    (habs : isAbsPath (sanitizeRequested output_dir fp) = false)
    (hdots : ∀ c ∈ pathComps (sanitizeRequested output_dir fp), c ≠ ['.', '.'])
    (hreal : realComps (pathComps (sanitizeRequested output_dir fp)) ≠ []) :
    (∀ od p, isAbsPath p = true → sanitizeRequested od p = baseNameOf p) ∧
    ∀ e ∈ (fileSaverExecute content (some fp) mode output_dir st now).writes,
      isDescendant (get_session_folder output_dir now st).1 e.1 = true := by
  constructor
  · intro od p hp
    have hsl : p.data.contains '/' = true := by
      unfold isAbsPath at hp
      cases hd : p.data with
      | nil => rw [hd] at hp; simp at hp
      | cons c tcs =>
        rw [hd] at hp
        simp only [decide_eq_true_eq] at hp
        simp [hp]
    unfold sanitizeRequested
    rw [if_pos hp, if_pos (Or.inl hsl)]
  · have hroot : ((get_session_folder output_dir now st).1).data ≠ [] := by
      unfold get_session_folder
      dsimp only
      apply joinPath_data_ne_nil
      rw [String.data_append]
      simp
    have hchk : ∀ (c : String) (e : String × String × String),
        e ∈ (fileSaverChecked c (some fp) mode output_dir st now).writes →
        isDescendant (get_session_folder output_dir now st).1 e.1 = true := by
      intro c e he
      unfold fileSaverChecked at he
      dsimp only at he
      split at he
      · simp at he
      split at he
      · simp at he
      · simp only [List.mem_singleton] at he
        rw [he]
        exact isDescendant_joinPath _ _ hroot habs hdots hreal
    intro e he
    unfold fileSaverExecute at he
    cases content with
    | none =>
      unfold fileSaverNoContent at he
      dsimp only at he
      split at he
      · exact hchk _ e he
      · simp at he
    | some c =>
      dsimp only at he
      by_cases hc : c = ""
      · rw [if_pos hc] at he
        unfold fileSaverNoContent at he
        dsimp only at he
        split at he
        · exact hchk _ e he
        · simp at he
      · rw [if_neg hc] at he
        exact hchk c e he

/-- Witness for C2 (amended): both conjuncts at concrete inputs. -/
theorem c2_sandboxed_amended_witness :
    sanitizeRequested "output" "/tmp/evil.txt" = baseNameOf "/tmp/evil.txt" ∧
    ∀ e ∈ (fileSaverExecute (some "hello") (some "docs/notes.md") "w" "output" none
        "2024-01-01_00-00-00").writes,
      isDescendant (get_session_folder "output" "2024-01-01_00-00-00" none).1 e.1 = true :=
  ⟨(c2_sandboxed_amended (some "hello") "docs/notes.md" "w" "output" "2024-01-01_00-00-00" none
      (by decide) (by decide) (by decide)).1 "output" "/tmp/evil.txt" (by decide),
   (c2_sandboxed_amended (some "hello") "docs/notes.md" "w" "output" "2024-01-01_00-00-00" none
      (by decide) (by decide) (by decide)).2⟩

end OpenManus

namespace OpenManus

/-- C9: a relative `file_path` that textually begins with `output_dir ++ "/"`
has that prefix stripped exactly once before joining: `output/notes.md` with
output dir `output` lands at `result_<ts>/notes.md` under the base directory,
not at `result_<ts>/output/notes.md`. -/
theorem c9_output_prefix_stripped_once (c ts : String) (hc : c ≠ "")
    (hts : endsWithSlash ts = false) :
    (fileSaverExecute (some c) (some "output/notes.md") "w" "output" none ts).writes
      = [("output/result_" ++ ts ++ "/notes.md", "w", c)] ∧
    ("output/result_" ++ ts ++ "/notes.md" : String)
      ≠ "output/result_" ++ ts ++ "/output/notes.md" := by
  have h1 : joinPath "output" ("result_" ++ ts) = "output/result_" ++ ts := by
    unfold joinPath
    rw [if_neg (by rw [isAbsPath_append_left "result_" ts (by decide)]; decide),
      if_neg (by decide)]
    apply strData_ext
    rw [String.data_append, String.data_append, String.data_append, String.data_append,
      ← List.append_assoc]
    congr 1
  have h2 : endsWithSlash ("output/result_" ++ ts) = false := by
    unfold endsWithSlash at hts ⊢
    rw [String.data_append]
    rcases List.eq_nil_or_concat ts.data with hnil | ⟨l, x, hl⟩
    · rw [hnil]
      decide
    · rw [hl, List.concat_eq_append, ← List.append_assoc, List.getLast?_concat]
      rw [hl, List.concat_eq_append, List.getLast?_concat] at hts
      exact hts
  have hne : ("output/result_" ++ ts : String) ≠ "" := by
    intro h
    have := congrArg String.data h
    rw [String.data_append] at this
    simp at this
  have h3 : joinPath ("output/result_" ++ ts) "notes.md"
      = ("output/result_" ++ ts) ++ "/notes.md" := by
    unfold joinPath
    rw [if_neg (by decide), if_neg (by rw [h2]; simp [hne])]
    apply strData_ext
    rw [String.data_append, String.data_append, String.data_append, List.append_assoc]
    congr 1
  constructor
  · unfold fileSaverExecute
    dsimp only
    rw [if_neg hc]
    unfold fileSaverChecked
    dsimp only
    rw [if_neg (by decide), if_neg (by decide)]
    unfold get_session_folder
    dsimp only
    rw [show sanitizeRequested "output" "output/notes.md" = "notes.md" from by decide]
    rw [h1, h3]
  · intro h
    have hlen := congrArg String.length h
    rw [String.length_append, String.length_append, String.length_append,
      String.length_append] at hlen
    have e1 : ("/notes.md" : String).length = 9 := by decide
    have e2 : ("/output/notes.md" : String).length = 16 := by decide
    rw [e1, e2] at hlen
    omega

/-- Witness for C9 at a concrete timestamp and content. -/
theorem c9_output_prefix_stripped_once_witness :
    (fileSaverExecute (some "note body") (some "output/notes.md") "w" "output" none
        "2024-01-01_00-00-00").writes
      = [("output/result_" ++ "2024-01-01_00-00-00" ++ "/notes.md", "w", "note body")] ∧
    ("output/result_" ++ "2024-01-01_00-00-00" ++ "/notes.md" : String)
      ≠ "output/result_" ++ "2024-01-01_00-00-00" ++ "/output/notes.md" :=
  c9_output_prefix_stripped_once "note body" "2024-01-01_00-00-00" (by decide) (by decide)

/-- C10: `FileSaver.execute` called directly with `None` or empty content
but a usable `file_path` does not return an error: it writes auto-generated
default content and prefixes the success message with a warning — while the
dispatcher rejects a well-formed argument mapping whose `content` key is
absent with a missing-parameter error and invokes nothing. -/
theorem c10_empty_content_autogenerated_vs_dispatcher
    (fp mode output_dir now : String) (st : Option String) (content : Option String)
    (hcont : content = none ∨ content = some "")
    (hfp : isBlankStr fp = false) (hm : mode = "w" ∨ mode = "a") :
    (fileSaverExecute content (some fp) mode output_dir st now).message
      = "Warning: No content provided. Using auto-generated content for " ++ fp ++ ".\n"
        ++ ("Content successfully saved to "
            ++ joinPath (get_session_folder output_dir now st).1 (sanitizeRequested output_dir fp)) ∧
    (fileSaverExecute content (some fp) mode output_dir st now).writes
      = [(joinPath (get_session_folder output_dir now st).1 (sanitizeRequested output_dir fp),
          mode, generate_default_content fp)] ∧
    (∀ (env : DispatchEnv) (idv rawa : String) (args : FSArgs),
      env.tool_map.contains "file_saver" = true → rawa ≠ "" →
      env.parseJson rawa = Except.ok args → args.content = none →
      execute_tool env (some ⟨idv, some ⟨"file_saver", some rawa⟩⟩)
        = ("Error: " ++ "Error: Missing required 'content' parameter for file_saver tool", [])) := by
  have hfpne : fp ≠ "" := by
    intro h
    rw [h] at hfp
    exact absurd hfp (by decide)
  have hbody : fileSaverNoContent (some fp) mode output_dir st now
      = ⟨"Warning: No content provided. Using auto-generated content for " ++ fp ++ ".\n"
          ++ ("Content successfully saved to "
              ++ joinPath (get_session_folder output_dir now st).1 (sanitizeRequested output_dir fp)),
        [(joinPath (get_session_folder output_dir now st).1 (sanitizeRequested output_dir fp),
          mode, generate_default_content fp)],
        (get_session_folder output_dir now st).2⟩ := by
    unfold fileSaverNoContent
    dsimp only
    rw [if_pos hfpne]
    unfold fileSaverChecked
    dsimp only
    rw [if_neg (by rw [hfp]; decide), if_neg (by simp [hm])]
  refine ⟨?_, ?_, ?_⟩
  · rcases hcont with h | h
    · subst h; unfold fileSaverExecute; dsimp only; rw [hbody]
    · subst h; unfold fileSaverExecute; dsimp only; rw [if_pos rfl, hbody]
  · rcases hcont with h | h
    · subst h; unfold fileSaverExecute; dsimp only; rw [hbody]
    · subst h; unfold fileSaverExecute; dsimp only; rw [if_pos rfl, hbody]
  · intro env idv rawa args hmap hrawa hparse hnone
    unfold execute_tool
    dsimp only
    rw [if_neg (by decide), if_neg (by rw [hmap]; decide), if_neg hrawa, hparse]
    dsimp only
    rw [if_pos ⟨rfl, hnone⟩]

/-- Witness for C10 at concrete inputs, both for the direct call and the
dispatcher rejection. -/
theorem c10_empty_content_autogenerated_vs_dispatcher_witness :
    (fileSaverExecute none (some "report.txt") "w" "output" none "T").message
      = "Warning: No content provided. Using auto-generated content for " ++ "report.txt" ++ ".\n"
        ++ ("Content successfully saved to "
            ++ joinPath (get_session_folder "output" "T" none).1 (sanitizeRequested "output" "report.txt")) ∧
    (fileSaverExecute none (some "report.txt") "w" "output" none "T").writes
      = [(joinPath (get_session_folder "output" "T" none).1 (sanitizeRequested "output" "report.txt"),
          "w", generate_default_content "report.txt")] ∧
    (∀ (env : DispatchEnv) (idv rawa : String) (args : FSArgs),
      env.tool_map.contains "file_saver" = true → rawa ≠ "" →
      env.parseJson rawa = Except.ok args → args.content = none →
      execute_tool env (some ⟨idv, some ⟨"file_saver", some rawa⟩⟩)
        = ("Error: " ++ "Error: Missing required 'content' parameter for file_saver tool", [])) :=
  c10_empty_content_autogenerated_vs_dispatcher "report.txt" "w" "output" "T" none none
    (Or.inl rfl) (by decide) (Or.inl rfl)

end OpenManus
